import Mathlib

/-!
A shallow embedding of the machine-translation evaluation recipe
(`fairseq2/recipes/mt/_eval.py`) and of the one-time runtime setup
(`fairseq2/setup/_root.py`), together with theorems about the embedded
definitions.

Conventions of the embedding:

* Python exceptions are modelled explicitly: validation code returns an
  error value carrying the exact message the source builds, and the state
  at the moment the exception is raised.
* External collaborators (the sequence generator, the loss criterion, the
  filesystem, the dataset) are modelled as function-valued parameters, so
  every definition stays executable.
* Text streams (`TextIO`) are modelled as a path plus a log of write/flush
  operations; file writes are therefore observable in the state.
* Machine integers do not occur in the modelled code paths; all counters
  are `Nat`.
-/

namespace Fairseq2

/-- Kinds of Python exceptions raised by the modelled code, with their
message strings. `valueError` models `ValueError`, `typeError` models
`TypeError`. -/
inductive PyError
  | valueError (msg : String)
  | typeError (msg : String)
  deriving DecidableEq, Repr

/-- One operation performed on a text stream: writing a chunk of text, or
flushing the stream. -/
inductive StreamOp
  | write (s : String)
  | flush
  deriving DecidableEq, Repr

/-- A text stream (`TextIO` handle): the path it was opened at and the log
of operations performed on it, in order. -/
structure TextIOState where
  path : String
  ops : List StreamOp
  deriving DecidableEq, Repr

/-- A value stored in a batch's `example` side-channel mapping.
`iterable items` models any Python iterable (its iteration yielding
`items`); `nonIterable tyName` models a non-iterable value whose
`type(...)` renders as `tyName`. -/
inductive ExampleValue
  | iterable (items : List String)
  | nonIterable (tyName : String)
  deriving DecidableEq, Repr

/-- The `example` side-channel attached to a batch: either a mapping from
string keys to values, or a non-mapping Python object whose `type(...)`
renders as `tyName`. -/
inductive BatchExample
  | mapping (entries : List (String × ExampleValue))
  | nonMapping (tyName : String)
  deriving DecidableEq, Repr

/-- A `Seq2SeqBatch` as used by the evaluation units: source sequences
(token ids), an optional source padding mask, and the optional `example`
side-channel. Target sequences are not consulted by the modelled code
paths and are omitted. -/
structure Seq2SeqBatch where
  source_seqs : List (List Nat)
  source_padding_mask : Option (List Nat)
  «example» : Option BatchExample

/-- `Seq2SeqBatch.num_source_elements()`: the number of source elements in
the batch. -/
def Seq2SeqBatch.num_source_elements (b : Seq2SeqBatch) : Nat :=
  (b.source_seqs.map List.length).sum

/-- A gang (one coordination group of worker processes): its 0-indexed
rank and its size. The device attribute is opaque to the modelled code
paths and omitted. -/
structure Gang where
  rank : Nat
  size : Nat
  deriving DecidableEq, Repr

/-- The `Gangs` bundle: the root gang spanning all processes, the
data-parallel gang `dp` and the tensor-parallel gang `tp`. -/
structure Gangs where
  root : Gang
  dp : Gang
  tp : Gang
  deriving DecidableEq, Repr

/-- A registered metric entry of a metric bag: its unique name and its
`persistent` flag. -/
structure MetricEntry where
  name : String
  persistent : Bool
  deriving DecidableEq, Repr

/-- The state of a `Seq2SeqGenerationMetricBag` owned by the scoring unit.
The BLEU/chrF formulas are external collaborators (out of scope), so each
accumulator is modelled as the log of `update` calls it has received:
`bleuUpdates` and `chrfUpdates` log `(refs, hyps)` pairs, and
`batchMetricUpdates` logs the `(generator_output, num_source_elements)`
pairs passed to `update_batch_metrics`. -/
structure Seq2SeqGenerationMetricBag where
  gang : Gang
  registered : List MetricEntry
  bleuUpdates : List (List String × List String)
  chrfUpdates : List (List String × List String)
  batchMetricUpdates : List (Nat × Nat)
  deriving DecidableEq, Repr

/-- Modelled from the spec: `MetricBag.register_metric(name, accumulator,
persistent)` registers a named accumulator with a persistence flag;
duplicate names are a fatal configuration error (spec section 4.5). The
`MetricBag` base class itself is not part of the provided sources. -/
def Seq2SeqGenerationMetricBag.register_metric (bag : Seq2SeqGenerationMetricBag)
    (name : String) (persistent : Bool) : Except String Seq2SeqGenerationMetricBag :=
  if bag.registered.any (fun e => e.name == name) then
    .error ("The metric \x27" ++ name ++ "\x27 is already registered.")
  else
    .ok { bag with registered := bag.registered ++ [⟨name, persistent⟩] }

/-- The `persistent` flag of the metric registered under `name`, if any. -/
def Seq2SeqGenerationMetricBag.persistentOf (bag : Seq2SeqGenerationMetricBag)
    (name : String) : Option Bool :=
  (bag.registered.find? (fun e => e.name == name)).map (fun e => e.persistent)

/-- Modelled from the spec: non-`persistent` metrics are cleared by the
Evaluator at designated checkpoints, while `persistent` metrics survive
(spec section 4.5). Clearing resets a non-persistent accumulator to its
initial (empty) state; here this is applied to the two named quality
metrics of the scoring unit's bag. -/
def Seq2SeqGenerationMetricBag.reset_non_persistent
    (bag : Seq2SeqGenerationMetricBag) : Seq2SeqGenerationMetricBag :=
  { bag with
    bleuUpdates := if bag.persistentOf "bleu" = some true then bag.bleuUpdates else []
    chrfUpdates := if bag.persistentOf "chrf" = some true then bag.chrfUpdates else [] }

/-- The external `SequenceToTextConverter.batch_convert` collaborator:
given the source sequences and padding mask it returns the list of
hypothesis texts and an opaque generator-output statistic (modelled as a
`Nat`). -/
def ConverterFn : Type :=
  List (List Nat) → Option (List Nat) → List String × Nat

/-- The message of the `ValueError` raised when `batch.example` is `None`. -/
def exampleNoneMsg : String :=
  "\x60batch.example\x60 must not be \x60None\x60."

/-- The rendering of the `typing.Mapping` type object inside the f-string
of the non-mapping `TypeError`. -/
def mappingTypeRepr : String := "typing.Mapping"

/-- The message of the `TypeError` raised when `batch.example` is not a
mapping; `ty` is the rendering of the actual type. -/
def notMappingMsg (ty : String) : String :=
  "\x60batch.example\x60 must be of type \x60" ++ mappingTypeRepr ++
    "\x60, but is of type \x60" ++ ty ++ "\x60 instead."

/-- The message of the `ValueError` raised when the side-channel mapping
lacks the required key `key`. -/
def missingItemMsg (key : String) : String :=
  "\x60batch.example\x60 must contain a \x27" ++ key ++ "\x27 item."

/-- The message of the `TypeError` raised when the side-channel value under
`key` is not an iterable; `ty` is the rendering of the actual type. -/
def notIterableMsg (key : String) (ty : String) : String :=
  "\x60batch.example[\x27" ++ key ++ "\x27] must be an iterable of strings, but is of type \x60" ++
    ty ++ "\x60 instead."

/-- The state of an `MTBleuChrfEvalUnit`: display name, the converter
collaborator, the three optional output streams, the owned metric bag, and
a log of the invocations of the external generator/converter collaborator
(recording the arguments of each `batch_convert` call). -/
structure MTBleuChrfEvalUnitState where
  display_name : String
  converter : ConverterFn
  src_output_stream : Option TextIOState
  ref_output_stream : Option TextIOState
  hyp_output_stream : Option TextIOState
  metric_bag : Seq2SeqGenerationMetricBag
  generator_calls : List (List (List Nat) × Option (List Nat))

/-- `MTBleuChrfEvalUnit.__init__`: sets the display name to
`score/{direction}`, stores the converter and the three output streams,
creates the bag, and registers the `bleu` and `chrf` metrics, each with
`persistent=False`. The `gangs` argument (used in the source only to pick
the device and the data-parallel gang of the bag) is kept for fidelity. -/
def MTBleuChrfEvalUnit.init (direction : String) (converter : ConverterFn)
    (gangs : Gangs)
    (src_output_stream ref_output_stream hyp_output_stream : Option TextIOState) :
    Except String MTBleuChrfEvalUnitState :=
  let metric_bag : Seq2SeqGenerationMetricBag :=
    { gang := gangs.dp, registered := [], bleuUpdates := [], chrfUpdates := [],
      batchMetricUpdates := [] }
  match metric_bag.register_metric "bleu" false with
  | .error e => .error e
  | .ok metric_bag =>
  match metric_bag.register_metric "chrf" false with
  | .error e => .error e
  | .ok metric_bag =>
    .ok { display_name := "score/" ++ direction
          converter
          src_output_stream
          ref_output_stream
          hyp_output_stream
          metric_bag
          generator_calls := [] }

/-- The result of invoking a unit: the unit's state at the moment the call
returned or raised, and the raised exception if any (Python semantics:
mutations performed before the raise are kept, later statements never
run). -/
structure CallOutcome where
  state : MTBleuChrfEvalUnitState
  raised : Option PyError

/-- Appending the dump loop of `MTBleuChrfEvalUnit.__call__` to a stream:
for each text, write the text then a single newline; after the loop, flush
once. -/
def lineOps (texts : List String) : List StreamOp :=
  texts.flatMap (fun t => [StreamOp.write t, StreamOp.write "\n"]) ++ [StreamOp.flush]

/-- Performing the dump loop on a stream. -/
def dumpTo (st : TextIOState) (texts : List String) : TextIOState :=
  { st with ops := st.ops ++ lineOps texts }

/-- Performing the dump loop on an optional stream (`if stream is not
None`). -/
def dumpStream (st : Option TextIOState) (texts : List String) : Option TextIOState :=
  st.map (fun s => dumpTo s texts)

/-- `MTBleuChrfEvalUnit.__call__`: validates the `example` side-channel
(present, a mapping, has iterable `source_text` and `target_text` items),
then invokes the converter, updates the `bleu`/`chrf` accumulators and the
generic batch metrics, and finally dumps sources, references and
hypotheses to the respective streams when present, flushing each. -/
def MTBleuChrfEvalUnit.call (u : MTBleuChrfEvalUnitState) (batch : Seq2SeqBatch) :
    CallOutcome :=
  match batch.«example» with
  | none => ⟨u, some (.valueError exampleNoneMsg)⟩
  | some (.nonMapping ty) => ⟨u, some (.typeError (notMappingMsg ty))⟩
  | some (.mapping m) =>
    match m.lookup "source_text" with
    | none => ⟨u, some (.valueError (missingItemMsg "source_text"))⟩
    | some (.nonIterable ty) => ⟨u, some (.typeError (notIterableMsg "source_text" ty))⟩
    | some (.iterable srcs) =>
      match m.lookup "target_text" with
      | none => ⟨u, some (.valueError (missingItemMsg "target_text"))⟩
      | some (.nonIterable ty) => ⟨u, some (.typeError (notIterableMsg "target_text" ty))⟩
      | some (.iterable refs) =>
        let converted := u.converter batch.source_seqs batch.source_padding_mask
        let hyps := converted.1
        let output := converted.2
        let bag := u.metric_bag
        let bag := { bag with bleuUpdates := bag.bleuUpdates ++ [(refs, hyps)] }
        let bag := { bag with chrfUpdates := bag.chrfUpdates ++ [(refs, hyps)] }
        let bag :=
          { bag with
            batchMetricUpdates :=
              bag.batchMetricUpdates ++ [(output, batch.num_source_elements)] }
        ⟨{ u with
            metric_bag := bag
            generator_calls :=
              u.generator_calls ++ [(batch.source_seqs, batch.source_padding_mask)]
            src_output_stream := dumpStream u.src_output_stream srcs
            ref_output_stream := dumpStream u.ref_output_stream refs
            hyp_output_stream := dumpStream u.hyp_output_stream hyps },
         none⟩

/-- The state of the loss unit's `Seq2SeqMetricBag` (`loss`,
`num_elements`, ... counters). The counter semantics live in the external
criterion collaborator; the bag is modelled as named integer counters. -/
structure Seq2SeqMetricBag where
  gang : Gang
  train : Bool
  counters : List (String × Int)
  deriving DecidableEq, Repr

/-- The external `MTCriterion` collaborator: given a batch it updates the
loss unit's metric bag (purely numeric). -/
def CriterionFn : Type :=
  Seq2SeqBatch → Seq2SeqMetricBag → Seq2SeqMetricBag

/-- The state of an `MTLossEvalUnit`: display name, the criterion
collaborator, and the exclusively-owned metric bag. The unit holds no
output streams. -/
structure MTLossEvalUnitState where
  display_name : String
  criterion : CriterionFn
  metric_bag : Seq2SeqMetricBag

/-- `MTLossEvalUnit.__init__`: sets the display name to `loss/{direction}`,
stores the criterion and creates a fresh `Seq2SeqMetricBag(gangs.dp,
train=False)`. -/
def MTLossEvalUnit.init (criterion : CriterionFn) (direction : String) (gangs : Gangs) :
    MTLossEvalUnitState :=
  { display_name := "loss/" ++ direction
    criterion
    metric_bag := { gang := gangs.dp, train := false, counters := [] } }

/-- `MTLossEvalUnit.__call__`: forwards the batch and the bag to the
criterion. The second component is the list of stream operations performed
by the invocation; the source body performs none. -/
def MTLossEvalUnit.call (u : MTLossEvalUnitState) (batch : Seq2SeqBatch) :
    MTLossEvalUnitState × List StreamOp :=
  ({ u with metric_bag := u.criterion batch u.metric_bag }, [])

/-- The `FileMode` used with `FileSystem.open_text`; only `WRITE` occurs in
the modelled code paths. -/
inductive FileMode
  | read
  | write
  deriving DecidableEq, Repr

/-- The external filesystem collaborator: `make_directory` and `open_text`
either succeed or raise an `OSError` (modelled as the error string). A
successful `open_text` yields a fresh text stream at the given path, which
the caller constructs. -/
structure FileSystem where
  make_directory : String → Except String Unit
  open_text : String → FileMode → Except String Unit

/-- A filesystem whose operations never raise. -/
def FileSystem.alwaysOk (fs : FileSystem) : Prop :=
  (∀ p, fs.make_directory p = .ok ()) ∧ ∀ p m, fs.open_text p m = .ok ()

/-- A successfully performed filesystem operation, as logged by
`load_mt_evaluator`. -/
inductive FsOp
  | make_directory (path : String)
  | open_text (path : String) (mode : FileMode)
  deriving DecidableEq, Repr

/-- An error escaping `load_mt_evaluator`: a `SetupError` wrapping a
filesystem failure, or an error propagated from metric registration. -/
inductive LoadError
  | setupError (msg : String)
  | metricError (msg : String)
  deriving DecidableEq, Repr

/-- The dataset section of `MTEvalConfig` (the fields consulted by
`load_mt_evaluator`). -/
structure MTEvalDatasetSection where
  split : String
  min_seq_len : Nat
  max_seq_len : Nat
  max_num_tokens : Nat
  num_prefetch : Nat
  deriving DecidableEq, Repr

/-- The fields of `MTEvalConfig` consulted by the modelled part of
`load_mt_evaluator`: the base recipe seed, the dataset section and the
`seq2seq_generator.batch_size`. -/
structure MTEvalConfig where
  seed : Nat
  dataset : MTEvalDatasetSection
  generator_batch_size : Nat
  deriving DecidableEq, Repr

/-- The batching policy: a fixed example count or a token budget. -/
inductive Batching
  | staticBatching (batch_size : Nat)
  | lengthBatching (max_num_tokens : Nat)
  deriving DecidableEq, Repr

/-- The end-of-epoch synchronization mode of a data reader. -/
inductive SyncMode
  | untilFirst
  | untilLast
  deriving DecidableEq, Repr

/-- `ParallelTextReadOptions` as constructed by `load_mt_evaluator`. -/
structure ParallelTextReadOptions where
  batching : Batching
  direction : String
  sync_mode : SyncMode
  num_prefetch : Nat
  seed : Nat
  deriving DecidableEq, Repr

/-- The arguments of one `dataset.create_reader(...)` call: the data
reader itself is an external collaborator, so a reader is identified by
the arguments it was created with. -/
structure DataReaderSpec where
  split : String
  gang : Gang
  min_seq_len : Nat
  max_seq_len : Nat
  options : ParallelTextReadOptions
  deriving DecidableEq, Repr

/-- `Path.joinpath`: join a base path and a relative path. -/
def joinpath (base rel : String) : String :=
  base ++ "/" ++ rel

/-- `Path.parent`: drop the last `/`-separated component. -/
def parentPath (p : String) : String :=
  String.intercalate "/" (p.splitOn "/").dropLast

/-- The per-rank output file path
`{output_dir}/translations/{direction}/rank_{rank}{suffix}` with `suffix`
one of `.src.txt`, `.ref.txt`, `.hyp.txt`. -/
def rankFileName (output_dir direction : String) (rank : Nat) (suffix : String) : String :=
  joinpath output_dir
    ("translations/" ++ direction ++ "/rank_" ++ toString rank ++ suffix)

/-- The `SetupError` message when the output directory cannot be created. -/
def mkdirFailMsg (p : String) : String :=
  "The \x27" ++ p ++ "\x27 output directory cannot be created. See the nested exception for details."

/-- The `SetupError` message when an output file cannot be created. -/
def openFailMsg (p : String) : String :=
  "The \x27" ++ p ++ "\x27 output file cannot be created. See the nested exception for details."

/-- The per-direction output-file setup block of `load_mt_evaluator`: on
the tensor-parallel writer rank (`tp.rank == 0`) it creates the output
directory and opens the three output files, wrapping any `OSError` into a
`SetupError` carrying the offending path; on every other tensor-parallel
rank all three streams are `None` and no filesystem call is made. Returns
the successful filesystem operations and the three streams. -/
def setupOutputStreams (fs : FileSystem) (output_dir direction : String) (gangs : Gangs) :
    Except LoadError (List FsOp × (Option TextIOState × Option TextIOState × Option TextIOState)) :=
  if gangs.tp.rank = 0 then
    let rank := gangs.dp.rank
    let src_file := rankFileName output_dir direction rank ".src.txt"
    let ref_file := rankFileName output_dir direction rank ".ref.txt"
    let hyp_file := rankFileName output_dir direction rank ".hyp.txt"
    match fs.make_directory (parentPath src_file) with
    | .error _ => .error (.setupError (mkdirFailMsg (parentPath src_file)))
    | .ok _ =>
    match fs.open_text src_file FileMode.write with
    | .error _ => .error (.setupError (openFailMsg src_file))
    | .ok _ =>
    match fs.open_text ref_file FileMode.write with
    | .error _ => .error (.setupError (openFailMsg ref_file))
    | .ok _ =>
    match fs.open_text hyp_file FileMode.write with
    | .error _ => .error (.setupError (openFailMsg hyp_file))
    | .ok _ =>
      .ok ([FsOp.make_directory (parentPath src_file),
            FsOp.open_text src_file FileMode.write,
            FsOp.open_text ref_file FileMode.write,
            FsOp.open_text hyp_file FileMode.write],
           (some ⟨src_file, []⟩, some ⟨ref_file, []⟩, some ⟨hyp_file, []⟩))
  else
    .ok ([], (none, none, none))

/-- One entry of the unit list built by `load_mt_evaluator`. -/
inductive MTEvalUnit
  | loss (u : MTLossEvalUnitState)
  | score (u : MTBleuChrfEvalUnitState)

/-- The per-direction loop body of `load_mt_evaluator`, iterated over the
remaining directions. The accumulators carry the running seed, the unit
list, the data-reader list and the log of successful filesystem
operations, exactly in the order the source appends to them. -/
def loadLoop (config : MTEvalConfig) (gangs : Gangs) (output_dir : String)
    (fs : FileSystem) (converter : ConverterFn) (criterion : CriterionFn) :
    List String → Nat → List MTEvalUnit → List DataReaderSpec → List FsOp →
    Except LoadError (Nat × List MTEvalUnit × List DataReaderSpec × List FsOp)
  | [], seed, units, readers, ops => .ok (seed, units, readers, ops)
  | direction :: rest, seed, units, readers, ops =>
    let loss_unit := MTLossEvalUnit.init criterion direction gangs
    let units := units ++ [MTEvalUnit.loss loss_unit]
    let batching := Batching.lengthBatching config.dataset.max_num_tokens
    let read_options : ParallelTextReadOptions :=
      { batching
        direction
        sync_mode := SyncMode.untilLast
        num_prefetch := config.dataset.num_prefetch
        seed }
    let data_reader : DataReaderSpec :=
      { split := config.dataset.split
        gang := gangs.dp
        min_seq_len := config.dataset.min_seq_len
        max_seq_len := config.dataset.max_seq_len
        options := read_options }
    let seed := seed + 1
    let readers := readers ++ [data_reader]
    match setupOutputStreams fs output_dir direction gangs with
    | .error e => .error e
    | .ok (newOps, streams) =>
      match MTBleuChrfEvalUnit.init direction converter gangs
          streams.1 streams.2.1 streams.2.2 with
      | .error e => .error (.metricError e)
      | .ok score_unit =>
        let units := units ++ [MTEvalUnit.score score_unit]
        let batching2 := Batching.staticBatching config.generator_batch_size
        let read_options2 : ParallelTextReadOptions :=
          { batching := batching2
            direction
            sync_mode := SyncMode.untilLast
            num_prefetch := config.dataset.num_prefetch
            seed }
        let data_reader2 : DataReaderSpec :=
          { split := config.dataset.split
            gang := gangs.dp
            min_seq_len := config.dataset.min_seq_len
            max_seq_len := config.dataset.max_seq_len
            options := read_options2 }
        let readers := readers ++ [data_reader2]
        let seed := seed + 1
        loadLoop config gangs output_dir fs converter criterion
          rest seed units readers (ops ++ newOps)

/-- The observable result of a successful `load_mt_evaluator` run: the
unit list and data-reader argument list handed to `create_evaluator`, the
final seed passed to it, the successful filesystem operations, and the
seed passed to `manual_seed` before model loading. -/
structure LoadResult where
  units : List MTEvalUnit
  data_readers : List DataReaderSpec
  final_seed : Nat
  fs_ops : List FsOp
  manual_seed_value : Nat

/-- `load_mt_evaluator`: after the (external) gang/dataset/model setup, it
seeds the RNG with `config.seed`, increments the seed, then runs the
per-direction loop and hands the final seed to `create_evaluator`. The
`directions` argument stands for `dataset.directions(config.dataset.split)`
(an external dataset collaborator). -/
def load_mt_evaluator (config : MTEvalConfig) (gangs : Gangs)
    (directions : List String) (output_dir : String) (fs : FileSystem)
    (converter : ConverterFn) (criterion : CriterionFn) :
    Except LoadError LoadResult :=
  let seed := config.seed
  let manual_seed_value := seed
  let seed := seed + 1
  match loadLoop config gangs output_dir fs converter criterion
      directions seed [] [] [] with
  | .error e => .error e
  | .ok (seed, units, readers, ops) =>
    .ok { units
          data_readers := readers
          final_seed := seed
          fs_ops := ops
          manual_seed_value }

/-- The runtime context built by `setup_runtime_context`. The asset store,
download manager and filesystem it bundles are external collaborators; the
context is identified by the ordered list of registration steps that were
run on it. -/
structure RuntimeContext where
  registrations : List String
  deriving DecidableEq, Repr

/-- `setup_runtime_context`: constructs a fresh context and runs every
registration step (and finally the `fairseq2.extension` entry-point
extensions) on it, in source order. -/
def setup_runtime_context : RuntimeContext :=
  { registrations :=
      ["assets", "beam_search_algorithms", "chatbots", "clusters",
       "config_sections", "datasets", "lr_schedulers", "metric_descriptors",
       "metric_recorders", "models", "optimizers", "recipes", "samplers",
       "seq2seq_generators", "seq_generators", "text_tokenizers",
       "extensions:fairseq2.extension"] }

/-- The process-wide state consulted by `setup_fairseq2`: the module-level
`_setup_called` flag and the context slot of `fairseq2.context`. -/
structure ProcessState where
  setup_called : Bool
  runtime_context : Option RuntimeContext
  deriving DecidableEq, Repr

/-- The state of a process that has not called `setup_fairseq2` yet. -/
def initialProcessState : ProcessState :=
  { setup_called := false, runtime_context := none }

/-- Modelled from the spec: `get_runtime_context` (from `fairseq2.context`,
not among the provided sources) reads the process-global context slot. -/
def get_runtime_context (s : ProcessState) : Option RuntimeContext :=
  s.runtime_context

/-- Modelled from the spec: `set_runtime_context` (from `fairseq2.context`,
not among the provided sources) stores a context in the process-global
slot. -/
def set_runtime_context (s : ProcessState) (c : RuntimeContext) : ProcessState :=
  { s with runtime_context := some c }

/-- `setup_fairseq2`: if the `_setup_called` flag is already set, return
the stored context; otherwise set the flag (before constructing, to avoid
recursive calls), construct and store the context, and return it. `none`
models `get_runtime_context` raising because no context was ever set. -/
def setup_fairseq2 (s : ProcessState) : Option (ProcessState × RuntimeContext) :=
  if s.setup_called then
    (get_runtime_context s).map (fun c => (s, c))
  else
    let s := { s with setup_called := true }
    let c := setup_runtime_context
    let s := set_runtime_context s c
    some (s, c)

/-- A converter collaborator used in concrete instantiations. -/
def sampleConverter : ConverterFn :=
  fun seqs _ => (seqs.map (fun _ => "hyp"), 7)

/-- A criterion collaborator used in concrete instantiations. -/
def sampleCriterion : CriterionFn :=
  fun b bag => { bag with counters := bag.counters ++ [("loss", Int.ofNat b.num_source_elements)] }

/-- A gang bundle on the tensor-parallel writer rank
(`root.size = dp.size * tp.size`). -/
def sampleGangs : Gangs :=
  { root := ⟨0, 2⟩, dp := ⟨0, 2⟩, tp := ⟨0, 1⟩ }

/-- A gang bundle on a non-writer tensor-parallel rank. -/
def nonWriterGangs : Gangs :=
  { root := ⟨3, 4⟩, dp := ⟨1, 2⟩, tp := ⟨1, 2⟩ }

/-- A concrete configuration used in concrete instantiations. -/
def sampleConfig : MTEvalConfig :=
  { seed := 2
    dataset :=
      { split := "test", min_seq_len := 1, max_seq_len := 512,
        max_num_tokens := 4096, num_prefetch := 4 }
    generator_batch_size := 8 }

/-- A filesystem collaborator whose operations always succeed. -/
def okFileSystem : FileSystem :=
  { make_directory := fun _ => .ok ()
    open_text := fun _ _ => .ok () }

/-- A filesystem collaborator whose `make_directory` always fails. -/
def mkdirFailingFileSystem : FileSystem :=
  { make_directory := fun p => .error ("Permission denied: " ++ p)
    open_text := fun _ _ => .ok () }

/-- `msg` contains `p` as a contiguous substring. -/
def containsPath (msg p : String) : Prop :=
  ∃ pre post, msg = pre ++ p ++ post

/-- The unit state produced by a successful `MTBleuChrfEvalUnit.init`. -/
def scoreInitState (direction : String) (conv : ConverterFn) (gangs : Gangs)
    (s1 s2 s3 : Option TextIOState) : MTBleuChrfEvalUnitState :=
  { display_name := "score/" ++ direction
    converter := conv
    src_output_stream := s1
    ref_output_stream := s2
    hyp_output_stream := s3
    metric_bag :=
      { gang := gangs.dp
        registered := [⟨"bleu", false⟩, ⟨"chrf", false⟩]
        bleuUpdates := []
        chrfUpdates := []
        batchMetricUpdates := [] }
    generator_calls := [] }

/-- A concretely constructed scoring unit without output streams. -/
def sampleScoreUnit : MTBleuChrfEvalUnitState :=
  scoreInitState "deu-eng" sampleConverter sampleGangs none none none

/-- The three streams `load_mt_evaluator` hands the scoring unit for a
direction: fresh streams at the three rank files on the tensor-parallel
writer rank, `none` elsewhere. -/
def expectedStreamsFor (output_dir : String) (gangs : Gangs) (d : String) :
    Option TextIOState × Option TextIOState × Option TextIOState :=
  if gangs.tp.rank = 0 then
    (some ⟨rankFileName output_dir d gangs.dp.rank ".src.txt", []⟩,
     some ⟨rankFileName output_dir d gangs.dp.rank ".ref.txt", []⟩,
     some ⟨rankFileName output_dir d gangs.dp.rank ".hyp.txt", []⟩)
  else (none, none, none)

/-- The filesystem operations `load_mt_evaluator` performs for one
direction. -/
def expectedOpsFor (output_dir : String) (gangs : Gangs) (d : String) : List FsOp :=
  if gangs.tp.rank = 0 then
    [FsOp.make_directory (parentPath (rankFileName output_dir d gangs.dp.rank ".src.txt")),
     FsOp.open_text (rankFileName output_dir d gangs.dp.rank ".src.txt") FileMode.write,
     FsOp.open_text (rankFileName output_dir d gangs.dp.rank ".ref.txt") FileMode.write,
     FsOp.open_text (rankFileName output_dir d gangs.dp.rank ".hyp.txt") FileMode.write]
  else []

/-- The two units `load_mt_evaluator` appends for one direction: the loss
unit, then the scoring unit. -/
def expectedUnitsFor (output_dir : String) (gangs : Gangs) (conv : ConverterFn)
    (crit : CriterionFn) (d : String) : List MTEvalUnit :=
  [MTEvalUnit.loss (MTLossEvalUnit.init crit d gangs),
   MTEvalUnit.score (scoreInitState d conv gangs
     (expectedStreamsFor output_dir gangs d).1
     (expectedStreamsFor output_dir gangs d).2.1
     (expectedStreamsFor output_dir gangs d).2.2)]

/-- The two reader specifications `load_mt_evaluator` appends for one
direction when the running seed is `seed` on entering the iteration: the
loss reader (length batching, seed `seed`), then the scoring reader
(static batching, seed `seed + 1`). -/
def expectedReadersFor (config : MTEvalConfig) (gangs : Gangs) (d : String) (seed : Nat) :
    List DataReaderSpec :=
  [{ split := config.dataset.split
     gang := gangs.dp
     min_seq_len := config.dataset.min_seq_len
     max_seq_len := config.dataset.max_seq_len
     options :=
       { batching := Batching.lengthBatching config.dataset.max_num_tokens
         direction := d
         sync_mode := SyncMode.untilLast
         num_prefetch := config.dataset.num_prefetch
         seed } },
   { split := config.dataset.split
     gang := gangs.dp
     min_seq_len := config.dataset.min_seq_len
     max_seq_len := config.dataset.max_seq_len
     options :=
       { batching := Batching.staticBatching config.generator_batch_size
         direction := d
         sync_mode := SyncMode.untilLast
         num_prefetch := config.dataset.num_prefetch
         seed := seed + 1 } }]

/-- The reader specifications `load_mt_evaluator` builds for a direction
list, starting from running seed `seed`. -/
def expectedReaders (config : MTEvalConfig) (gangs : Gangs) :
    List String → Nat → List DataReaderSpec
  | [], _ => []
  | d :: rest, seed =>
    expectedReadersFor config gangs d seed ++ expectedReaders config gangs rest (seed + 2)

/-- `MTBleuChrfEvalUnit.init` always succeeds (the two registered names are
distinct) and yields `scoreInitState`. -/
theorem scoreInit_ok (direction : String) (conv : ConverterFn) (gangs : Gangs)
    (s1 s2 s3 : Option TextIOState) :
    MTBleuChrfEvalUnit.init direction conv gangs s1 s2 s3
      = Except.ok (scoreInitState direction conv gangs s1 s2 s3) := rfl

/-- The dump loop always ends in a flush. -/
theorem append_lineOps_getLast (l : List StreamOp) (xs : List String) :
    (l ++ lineOps xs).getLast? = some StreamOp.flush := by
  rw [lineOps, ← List.append_assoc]
  exact List.getLast?_concat _

/-- C1: a batch whose side-channel mapping lacks `source_text` or (with a
well-formed `source_text`) lacks `target_text` makes the scoring unit's
`__call__` raise a `ValueError` whose message names the missing key, and a
batch whose value under either key is not an iterable raises the distinct
error kind `TypeError` whose message names the expected container shape
(`iterable of strings`) and the actual type. -/
theorem C1_side_channel_contract_errors
    (u : MTBleuChrfEvalUnitState) (ss : List (List Nat)) (pm : Option (List Nat))
    (m : List (String × ExampleValue)) :
    (m.lookup "source_text" = none →
      (MTBleuChrfEvalUnit.call u ⟨ss, pm, some (BatchExample.mapping m)⟩).raised
          = some (PyError.valueError (missingItemMsg "source_text"))
        ∧ containsPath (missingItemMsg "source_text") "source_text")
    ∧ (∀ ty, m.lookup "source_text" = some (ExampleValue.nonIterable ty) →
      (MTBleuChrfEvalUnit.call u ⟨ss, pm, some (BatchExample.mapping m)⟩).raised
          = some (PyError.typeError (notIterableMsg "source_text" ty))
        ∧ containsPath (notIterableMsg "source_text" ty) ty)
    ∧ (∀ srcs, m.lookup "source_text" = some (ExampleValue.iterable srcs) →
        m.lookup "target_text" = none →
      (MTBleuChrfEvalUnit.call u ⟨ss, pm, some (BatchExample.mapping m)⟩).raised
          = some (PyError.valueError (missingItemMsg "target_text"))
        ∧ containsPath (missingItemMsg "target_text") "target_text")
    ∧ (∀ srcs ty, m.lookup "source_text" = some (ExampleValue.iterable srcs) →
        m.lookup "target_text" = some (ExampleValue.nonIterable ty) →
      (MTBleuChrfEvalUnit.call u ⟨ss, pm, some (BatchExample.mapping m)⟩).raised
          = some (PyError.typeError (notIterableMsg "target_text" ty))
        ∧ containsPath (notIterableMsg "target_text" ty) ty) := by
  refine ⟨fun h => ⟨?_, ?_⟩, fun ty h => ⟨?_, ?_⟩, fun srcs h1 h2 => ⟨?_, ?_⟩,
    fun srcs ty h1 h2 => ⟨?_, ?_⟩⟩
  · simp [MTBleuChrfEvalUnit.call, h]
  · exact ⟨"\x60batch.example\x60 must contain a \x27", "\x27 item.", rfl⟩
  · simp [MTBleuChrfEvalUnit.call, h]
  · exact ⟨"\x60batch.example[\x27source_text\x27] must be an iterable of strings, but is of type \x60",
      "\x60 instead.", rfl⟩
  · simp [MTBleuChrfEvalUnit.call, h1, h2]
  · exact ⟨"\x60batch.example\x60 must contain a \x27", "\x27 item.", rfl⟩
  · simp [MTBleuChrfEvalUnit.call, h1, h2]
  · exact ⟨"\x60batch.example[\x27target_text\x27] must be an iterable of strings, but is of type \x60",
      "\x60 instead.", rfl⟩

/-- C1 witness: a concrete batch with a well-formed `source_text` and no
`target_text` raises the `ValueError` naming `target_text`. -/
theorem C1_side_channel_contract_errors_witness :
    ([("source_text", ExampleValue.iterable ["a source"])].lookup "source_text"
        = some (ExampleValue.iterable ["a source"]))
    ∧ ([("source_text", ExampleValue.iterable ["a source"])].lookup "target_text" = none)
    ∧ (MTBleuChrfEvalUnit.call sampleScoreUnit
        ⟨[[1, 2]], none,
         some (BatchExample.mapping [("source_text", ExampleValue.iterable ["a source"])])⟩).raised
          = some (PyError.valueError (missingItemMsg "target_text"))
    ∧ containsPath (missingItemMsg "target_text") "target_text" :=
  ⟨by decide, by decide,
   ((C1_side_channel_contract_errors sampleScoreUnit [[1, 2]] none
      [("source_text", ExampleValue.iterable ["a source"])]).2.2.1
      ["a source"] (by decide) (by decide)).1,
   ((C1_side_channel_contract_errors sampleScoreUnit [[1, 2]] none
      [("source_text", ExampleValue.iterable ["a source"])]).2.2.1
      ["a source"] (by decide) (by decide)).2⟩

/-- C8: the scoring unit's `__call__` is error-atomic: whenever it raises
(all raises come from the side-channel validation, which precedes the
generator invocation, the metric updates and the stream writes), the
unit's state — its metric bag, its generator-invocation log and its three
output streams — is exactly the state before the call. -/
theorem C8_validation_before_effects
    (u : MTBleuChrfEvalUnitState) (b : Seq2SeqBatch) (e : PyError)
    (h : (MTBleuChrfEvalUnit.call u b).raised = some e) :
    (MTBleuChrfEvalUnit.call u b).state = u := by
  rcases b with ⟨ss, pm, ex⟩
  cases ex with
  | none => rfl
  | some be =>
    cases be with
    | nonMapping ty => rfl
    | mapping m =>
      unfold MTBleuChrfEvalUnit.call at h ⊢
      cases hs : m.lookup "source_text" with
      | none => simp [hs]
      | some v =>
        cases v with
        | nonIterable ty => simp [hs]
        | iterable srcs =>
          cases ht : m.lookup "target_text" with
          | none => simp [hs, ht]
          | some w =>
            cases w with
            | nonIterable ty => simp [hs, ht]
            | iterable refs => simp [hs, ht] at h

/-- C8 witness: a concrete raising call (side-channel is `None`) leaves the
concrete unit unchanged. -/
theorem C8_validation_before_effects_witness :
    (MTBleuChrfEvalUnit.call sampleScoreUnit ⟨[[1]], none, none⟩).raised
        = some (PyError.valueError exampleNoneMsg)
    ∧ (MTBleuChrfEvalUnit.call sampleScoreUnit ⟨[[1]], none, none⟩).state
        = sampleScoreUnit :=
  ⟨rfl, C8_validation_before_effects sampleScoreUnit ⟨[[1]], none, none⟩
    (PyError.valueError exampleNoneMsg) rfl⟩

/-- C3: on a well-formed batch, the scoring unit's `__call__` does not
raise and, on each stream it holds, appends exactly one line per example —
the text followed by a single newline — for the sources, references and
hypotheses respectively, and finally flushes the stream (the last
operation on each stream is a flush). -/
theorem C3_per_example_lines_and_flush
    (u : MTBleuChrfEvalUnitState) (ss : List (List Nat)) (pm : Option (List Nat))
    (m : List (String × ExampleValue)) (srcs refs : List String)
    (s1 s2 s3 : TextIOState)
    (h1 : m.lookup "source_text" = some (ExampleValue.iterable srcs))
    (h2 : m.lookup "target_text" = some (ExampleValue.iterable refs))
    (hs1 : u.src_output_stream = some s1)
    (hs2 : u.ref_output_stream = some s2)
    (hs3 : u.hyp_output_stream = some s3) :
    (MTBleuChrfEvalUnit.call u ⟨ss, pm, some (BatchExample.mapping m)⟩).raised = none
    ∧ (MTBleuChrfEvalUnit.call u ⟨ss, pm, some (BatchExample.mapping m)⟩).state.src_output_stream
        = some { s1 with ops := s1.ops ++ lineOps srcs }
    ∧ (MTBleuChrfEvalUnit.call u ⟨ss, pm, some (BatchExample.mapping m)⟩).state.ref_output_stream
        = some { s2 with ops := s2.ops ++ lineOps refs }
    ∧ (MTBleuChrfEvalUnit.call u ⟨ss, pm, some (BatchExample.mapping m)⟩).state.hyp_output_stream
        = some { s3 with ops := s3.ops ++ lineOps (u.converter ss pm).1 }
    ∧ (s1.ops ++ lineOps srcs).getLast? = some StreamOp.flush
    ∧ (s2.ops ++ lineOps refs).getLast? = some StreamOp.flush
    ∧ (s3.ops ++ lineOps (u.converter ss pm).1).getLast? = some StreamOp.flush := by
  refine ⟨?_, ?_, ?_, ?_, append_lineOps_getLast _ _, append_lineOps_getLast _ _,
    append_lineOps_getLast _ _⟩ <;>
    simp [MTBleuChrfEvalUnit.call, h1, h2, hs1, hs2, hs3, dumpStream, dumpTo]

/-- C3 witness: a concrete well-formed two-example batch on a unit holding
three concrete streams. -/
theorem C3_per_example_lines_and_flush_witness :
    ([("source_text", ExampleValue.iterable ["s1", "s2"]),
      ("target_text", ExampleValue.iterable ["r1", "r2"])].lookup "source_text"
        = some (ExampleValue.iterable ["s1", "s2"]))
    ∧ ((scoreInitState "deu-eng" sampleConverter sampleGangs
          (some ⟨"out/src", []⟩) (some ⟨"out/ref", []⟩) (some ⟨"out/hyp", []⟩)).src_output_stream
        = some ⟨"out/src", []⟩)
    ∧ (MTBleuChrfEvalUnit.call
        (scoreInitState "deu-eng" sampleConverter sampleGangs
          (some ⟨"out/src", []⟩) (some ⟨"out/ref", []⟩) (some ⟨"out/hyp", []⟩))
        ⟨[[1], [2]], none,
         some (BatchExample.mapping
           [("source_text", ExampleValue.iterable ["s1", "s2"]),
            ("target_text", ExampleValue.iterable ["r1", "r2"])])⟩).state.src_output_stream
        = some ⟨"out/src", [] ++ lineOps ["s1", "s2"]⟩ :=
  ⟨by decide, rfl,
   (C3_per_example_lines_and_flush
      (scoreInitState "deu-eng" sampleConverter sampleGangs
        (some ⟨"out/src", []⟩) (some ⟨"out/ref", []⟩) (some ⟨"out/hyp", []⟩))
      [[1], [2]] none
      [("source_text", ExampleValue.iterable ["s1", "s2"]),
       ("target_text", ExampleValue.iterable ["r1", "r2"])]
      ["s1", "s2"] ["r1", "r2"] ⟨"out/src", []⟩ ⟨"out/ref", []⟩ ⟨"out/hyp", []⟩
      (by decide) (by decide) rfl rfl rfl).2.1⟩

/-- C6: the loss unit's `__call__` performs no stream writes and changes
nothing but the exclusively-owned metric bag: the display name and the
criterion reference are unchanged, and the bag becomes exactly the
criterion's update of the previous bag. -/
theorem C6_loss_unit_frame (u : MTLossEvalUnitState) (b : Seq2SeqBatch) :
    (MTLossEvalUnit.call u b).2 = []
    ∧ (MTLossEvalUnit.call u b).1.display_name = u.display_name
    ∧ (MTLossEvalUnit.call u b).1.criterion = u.criterion
    ∧ (MTLossEvalUnit.call u b).1.metric_bag = u.criterion b u.metric_bag :=
  ⟨rfl, rfl, rfl, rfl⟩

/-- C7: for every direction, the loss unit's display name is
`loss/{direction}` and the scoring unit's display name is
`score/{direction}`. -/
theorem C7_display_name_suffixes (criterion : CriterionFn) (direction : String)
    (gangs : Gangs) (conv : ConverterFn) (s1 s2 s3 : Option TextIOState) :
    (MTLossEvalUnit.init criterion direction gangs).display_name = "loss/" ++ direction
    ∧ ∀ u, MTBleuChrfEvalUnit.init direction conv gangs s1 s2 s3 = Except.ok u →
        u.display_name = "score/" ++ direction := by
  refine ⟨rfl, fun u h => ?_⟩
  rw [scoreInit_ok] at h
  cases h
  rfl

/-- C7 witness: concrete direction `deu-eng`. -/
theorem C7_display_name_suffixes_witness :
    (MTBleuChrfEvalUnit.init "deu-eng" sampleConverter sampleGangs none none none
        = Except.ok sampleScoreUnit)
    ∧ (MTLossEvalUnit.init sampleCriterion "deu-eng" sampleGangs).display_name
        = "loss/deu-eng"
    ∧ sampleScoreUnit.display_name = "score/deu-eng" :=
  ⟨rfl,
   (C7_display_name_suffixes sampleCriterion "deu-eng" sampleGangs
      sampleConverter none none none).1,
   (C7_display_name_suffixes sampleCriterion "deu-eng" sampleGangs
      sampleConverter none none none).2 sampleScoreUnit rfl⟩

/-- C2 counterexample: the scoring unit constructed for a concrete
direction registers `bleu` and `chrf` with `persistent=False`, not as
persistent metrics, and an update they have accumulated does not survive
the clearing of non-persistent metrics. -/
theorem C2_persistent_counterexample :
    MTBleuChrfEvalUnit.init "deu-eng" sampleConverter sampleGangs none none none
        = Except.ok sampleScoreUnit
    ∧ ¬ sampleScoreUnit.metric_bag.persistentOf "bleu" = some true
    ∧ ¬ sampleScoreUnit.metric_bag.persistentOf "chrf" = some true
    ∧ sampleScoreUnit.metric_bag.persistentOf "bleu" = some false
    ∧ sampleScoreUnit.metric_bag.persistentOf "chrf" = some false
    ∧ ({ sampleScoreUnit.metric_bag with
          bleuUpdates := [(["r"], ["h"])]
          chrfUpdates := [(["r"], ["h"])] }).reset_non_persistent.bleuUpdates = []
    ∧ ({ sampleScoreUnit.metric_bag with
          bleuUpdates := [(["r"], ["h"])]
          chrfUpdates := [(["r"], ["h"])] }).reset_non_persistent.chrfUpdates = [] :=
  ⟨rfl, by decide, by decide, by decide, by decide, by decide, by decide⟩

/-- C2 (amended): the quality metrics registered by the scoring unit at
construction time — the `bleu` and `chrf` accumulators — are registered as
non-persistent metrics (`persistent=False`), so the Evaluator's clearing
of non-persistent metrics at designated checkpoints resets them. -/
theorem C2_quality_metrics_nonpersistent
    (direction : String) (conv : ConverterFn) (gangs : Gangs)
    (s1 s2 s3 : Option TextIOState) (u : MTBleuChrfEvalUnitState)
    (h : MTBleuChrfEvalUnit.init direction conv gangs s1 s2 s3 = Except.ok u) :
    u.metric_bag.persistentOf "bleu" = some false
    ∧ u.metric_bag.persistentOf "chrf" = some false
    ∧ ∀ bleuUps chrfUps,
        ({ u.metric_bag with
            bleuUpdates := bleuUps
            chrfUpdates := chrfUps }).reset_non_persistent.bleuUpdates = []
        ∧ ({ u.metric_bag with
              bleuUpdates := bleuUps
              chrfUpdates := chrfUps }).reset_non_persistent.chrfUpdates = [] := by
  rw [scoreInit_ok] at h
  cases h
  exact ⟨rfl, rfl, fun bleuUps chrfUps => ⟨rfl, rfl⟩⟩

/-- C2 witness: the amended statement at a concrete direction and concrete
accumulated updates. -/
theorem C2_quality_metrics_nonpersistent_witness :
    (MTBleuChrfEvalUnit.init "eng-fra" sampleConverter sampleGangs none none none
        = Except.ok (scoreInitState "eng-fra" sampleConverter sampleGangs none none none))
    ∧ (scoreInitState "eng-fra" sampleConverter sampleGangs
        none none none).metric_bag.persistentOf "bleu" = some false
    ∧ ({ (scoreInitState "eng-fra" sampleConverter sampleGangs
            none none none).metric_bag with
          bleuUpdates := [(["ref"], ["hyp"])]
          chrfUpdates := [(["ref"], ["hyp"])] }).reset_non_persistent.bleuUpdates = [] :=
  ⟨rfl,
   (C2_quality_metrics_nonpersistent "eng-fra" sampleConverter sampleGangs
      none none none _ rfl).1,
   ((C2_quality_metrics_nonpersistent "eng-fra" sampleConverter sampleGangs
      none none none _ rfl).2.2 [(["ref"], ["hyp"])] [(["ref"], ["hyp"])]).1⟩

/-- When the filesystem does not fail, the per-direction setup block
succeeds and yields exactly the expected operations and streams. -/
theorem setupOutputStreams_ok (fs : FileSystem) (o d : String) (gangs : Gangs)
    (hmk : ∀ p, fs.make_directory p = .ok ())
    (hop : ∀ p m, fs.open_text p m = .ok ()) :
    setupOutputStreams fs o d gangs
      = .ok (expectedOpsFor o gangs d, expectedStreamsFor o gangs d) := by
  unfold setupOutputStreams expectedOpsFor expectedStreamsFor
  split
  · simp [hmk, hop]
  · rfl

/-- When the filesystem does not fail, the per-direction loop succeeds and
appends exactly the expected units, readers and filesystem operations,
advancing the seed by two per direction. -/
theorem loadLoop_ok (config : MTEvalConfig) (gangs : Gangs) (o : String)
    (fs : FileSystem) (conv : ConverterFn) (crit : CriterionFn)
    (hmk : ∀ p, fs.make_directory p = .ok ())
    (hop : ∀ p m, fs.open_text p m = .ok ())
    (ds : List String) :
    ∀ (seed : Nat) (units : List MTEvalUnit) (readers : List DataReaderSpec)
      (ops : List FsOp),
    loadLoop config gangs o fs conv crit ds seed units readers ops =
      .ok (seed + 2 * ds.length,
           units ++ ds.flatMap (expectedUnitsFor o gangs conv crit),
           readers ++ expectedReaders config gangs ds seed,
           ops ++ ds.flatMap (expectedOpsFor o gangs)) := by
  induction ds with
  | nil => intro seed units readers ops; simp [loadLoop, expectedReaders]
  | cons d rest ih =>
    intro seed units readers ops
    rw [loadLoop, setupOutputStreams_ok fs o d gangs hmk hop]
    simp only [scoreInit_ok]
    rw [ih]
    simp only [Except.ok.injEq, Prod.mk.injEq]
    refine ⟨by simp only [List.length_cons]; omega, ?_, ?_, ?_⟩ <;>
      simp [expectedUnitsFor, expectedReadersFor, expectedReaders, List.append_assoc]

/-- When the filesystem does not fail, `load_mt_evaluator` succeeds with
the expected units, readers, seeds and filesystem operations. -/
theorem load_mt_evaluator_ok (config : MTEvalConfig) (gangs : Gangs)
    (directions : List String) (output_dir : String) (fs : FileSystem)
    (conv : ConverterFn) (crit : CriterionFn)
    (hmk : ∀ p, fs.make_directory p = .ok ())
    (hop : ∀ p m, fs.open_text p m = .ok ()) :
    load_mt_evaluator config gangs directions output_dir fs conv crit =
      .ok { units := directions.flatMap (expectedUnitsFor output_dir gangs conv crit)
            data_readers := expectedReaders config gangs directions (config.seed + 1)
            final_seed := config.seed + 1 + 2 * directions.length
            fs_ops := directions.flatMap (expectedOpsFor output_dir gangs)
            manual_seed_value := config.seed } := by
  simp [load_mt_evaluator,
    loadLoop_ok config gangs output_dir fs conv crit hmk hop directions]

/-- The seeds of the readers built for `ds` starting at running seed `s`
are `s, s + 1, ..., s + 2|ds| - 1` in order. -/
theorem expectedReaders_seeds (config : MTEvalConfig) (gangs : Gangs)
    (ds : List String) :
    ∀ s : Nat,
      (expectedReaders config gangs ds s).map (fun r => r.options.seed)
        = (List.range (2 * ds.length)).map (fun i => s + i) := by
  induction ds with
  | nil => intro s; simp [expectedReaders]
  | cons d rest ih =>
    intro s
    have h2 : 2 * (d :: rest).length = 2 * rest.length + 1 + 1 := by
      simp [List.length_cons]; omega
    rw [expectedReaders, h2, List.range_succ_eq_map, List.range_succ_eq_map]
    simp [expectedReadersFor, ih, List.map_map, Function.comp]
    intro a ha
    omega

/-- A scoring unit holding no streams writes to no stream: after any
invocation all three streams are still `none`. -/
theorem call_keeps_streams_none (u : MTBleuChrfEvalUnitState) (b : Seq2SeqBatch)
    (h1 : u.src_output_stream = none) (h2 : u.ref_output_stream = none)
    (h3 : u.hyp_output_stream = none) :
    (MTBleuChrfEvalUnit.call u b).state.src_output_stream = none
    ∧ (MTBleuChrfEvalUnit.call u b).state.ref_output_stream = none
    ∧ (MTBleuChrfEvalUnit.call u b).state.hyp_output_stream = none := by
  rcases b with ⟨ss, pm, ex⟩
  cases ex with
  | none => exact ⟨h1, h2, h3⟩
  | some be =>
    cases be with
    | nonMapping ty => exact ⟨h1, h2, h3⟩
    | mapping m =>
      unfold MTBleuChrfEvalUnit.call
      cases hs : m.lookup "source_text" with
      | none => simp [hs, h1, h2, h3]
      | some v =>
        cases v with
        | nonIterable ty => simp [hs, h1, h2, h3]
        | iterable srcs =>
          cases ht : m.lookup "target_text" with
          | none => simp [hs, ht, h1, h2, h3]
          | some w =>
            cases w with
            | nonIterable ty => simp [hs, ht, h1, h2, h3]
            | iterable refs => simp [hs, ht, h1, h2, h3, dumpStream]

/-- C4: during setup, output files are created at exactly the paths
`translations/{direction}/rank_{dp_rank}.src.txt`, `.ref.txt` and
`.hyp.txt` under the output directory (one triple per direction, after
creating the direction's directory), and only on processes with
`tp.rank == 0`; on every other tensor-parallel rank no filesystem
operation happens, every scoring unit receives `None` for all three
streams, and its invocations never produce a stream. -/
theorem C4_rank_partitioned_output_files
    (config : MTEvalConfig) (gangs : Gangs) (directions : List String)
    (output_dir : String) (fs : FileSystem) (conv : ConverterFn) (crit : CriterionFn)
    (hmk : ∀ p, fs.make_directory p = .ok ())
    (hop : ∀ p m, fs.open_text p m = .ok ()) :
    ∃ r, load_mt_evaluator config gangs directions output_dir fs conv crit = Except.ok r
      ∧ (gangs.tp.rank = 0 →
          r.fs_ops = directions.flatMap (fun d =>
            [FsOp.make_directory
               (parentPath (rankFileName output_dir d gangs.dp.rank ".src.txt")),
             FsOp.open_text (rankFileName output_dir d gangs.dp.rank ".src.txt")
               FileMode.write,
             FsOp.open_text (rankFileName output_dir d gangs.dp.rank ".ref.txt")
               FileMode.write,
             FsOp.open_text (rankFileName output_dir d gangs.dp.rank ".hyp.txt")
               FileMode.write]))
      ∧ (gangs.tp.rank ≠ 0 →
          r.fs_ops = []
          ∧ ∀ su, MTEvalUnit.score su ∈ r.units →
              su.src_output_stream = none
              ∧ su.ref_output_stream = none
              ∧ su.hyp_output_stream = none
              ∧ ∀ b, (MTBleuChrfEvalUnit.call su b).state.src_output_stream = none
                  ∧ (MTBleuChrfEvalUnit.call su b).state.ref_output_stream = none
                  ∧ (MTBleuChrfEvalUnit.call su b).state.hyp_output_stream = none) := by
  refine ⟨_, load_mt_evaluator_ok config gangs directions output_dir fs conv crit hmk hop,
    ?_, ?_⟩
  · intro h0
    show directions.flatMap (expectedOpsFor output_dir gangs) = _
    congr 1
    funext d
    simp [expectedOpsFor, h0]
  · intro h0
    refine ⟨by simp [expectedOpsFor, h0], fun su hmem => ?_⟩
    simp only [List.mem_flatMap] at hmem
    obtain ⟨d, _, hin⟩ := hmem
    simp only [expectedUnitsFor, expectedStreamsFor, if_neg h0, List.mem_cons,
      List.mem_singleton, List.not_mem_nil, or_false] at hin
    rcases hin with hin | hin
    · exact absurd hin (by simp)
    · cases hin
      refine ⟨rfl, rfl, rfl, fun b => ?_⟩
      exact call_keeps_streams_none _ b rfl rfl rfl

/-- C4 witness: one concrete direction on the writer rank with an
always-succeeding filesystem. -/
theorem C4_rank_partitioned_output_files_witness :
    (∀ p, okFileSystem.make_directory p = .ok ())
    ∧ (∀ p m, okFileSystem.open_text p m = .ok ())
    ∧ ∃ r, load_mt_evaluator sampleConfig sampleGangs ["deu-eng"] "out" okFileSystem
          sampleConverter sampleCriterion = Except.ok r
        ∧ (sampleGangs.tp.rank = 0 →
            r.fs_ops = ["deu-eng"].flatMap (fun d =>
              [FsOp.make_directory
                 (parentPath (rankFileName "out" d sampleGangs.dp.rank ".src.txt")),
               FsOp.open_text (rankFileName "out" d sampleGangs.dp.rank ".src.txt")
                 FileMode.write,
               FsOp.open_text (rankFileName "out" d sampleGangs.dp.rank ".ref.txt")
                 FileMode.write,
               FsOp.open_text (rankFileName "out" d sampleGangs.dp.rank ".hyp.txt")
                 FileMode.write]))
        ∧ (sampleGangs.tp.rank ≠ 0 →
            r.fs_ops = []
            ∧ ∀ su, MTEvalUnit.score su ∈ r.units →
                su.src_output_stream = none
                ∧ su.ref_output_stream = none
                ∧ su.hyp_output_stream = none
                ∧ ∀ b, (MTBleuChrfEvalUnit.call su b).state.src_output_stream = none
                    ∧ (MTBleuChrfEvalUnit.call su b).state.ref_output_stream = none
                    ∧ (MTBleuChrfEvalUnit.call su b).state.hyp_output_stream = none) :=
  ⟨fun _ => rfl, fun _ _ => rfl,
   C4_rank_partitioned_output_files sampleConfig sampleGangs ["deu-eng"] "out"
     okFileSystem sampleConverter sampleCriterion (fun _ => rfl) (fun _ _ => rfl)⟩

/-- C9: in one `load_mt_evaluator` run the i-th created data reader
(counting from 0; two per direction, loss reader then scoring reader)
receives seed `config.seed + 1 + i`; all reader seeds are distinct, the
seed handed to the evaluator is `config.seed + 1 + 2 * |directions|`, and
the seed sequence is the same deterministic function of `config.seed` and
the direction list (the statement holds for every filesystem, converter
and criterion collaborator). -/
theorem C9_reader_seed_assignment
    (config : MTEvalConfig) (gangs : Gangs) (directions : List String)
    (output_dir : String) (fs : FileSystem) (conv : ConverterFn) (crit : CriterionFn)
    (hmk : ∀ p, fs.make_directory p = .ok ())
    (hop : ∀ p m, fs.open_text p m = .ok ()) :
    ∃ r, load_mt_evaluator config gangs directions output_dir fs conv crit = Except.ok r
      ∧ r.data_readers.map (fun rd => rd.options.seed)
          = (List.range (2 * directions.length)).map (fun i => config.seed + 1 + i)
      ∧ (r.data_readers.map (fun rd => rd.options.seed)).Nodup
      ∧ r.final_seed = config.seed + 1 + 2 * directions.length
      ∧ r.manual_seed_value = config.seed := by
  refine ⟨_, load_mt_evaluator_ok config gangs directions output_dir fs conv crit hmk hop,
    ?_, ?_, rfl, rfl⟩
  · exact expectedReaders_seeds config gangs directions (config.seed + 1)
  · rw [show (({ units := directions.flatMap (expectedUnitsFor output_dir gangs conv crit)
                 data_readers := expectedReaders config gangs directions (config.seed + 1)
                 final_seed := config.seed + 1 + 2 * directions.length
                 fs_ops := directions.flatMap (expectedOpsFor output_dir gangs)
                 manual_seed_value := config.seed } : LoadResult).data_readers.map
        (fun rd => rd.options.seed))
        = (List.range (2 * directions.length)).map (fun i => config.seed + 1 + i)
      from expectedReaders_seeds config gangs directions (config.seed + 1)]
    exact (List.nodup_range _).map fun a b h => by omega

/-- C9 witness: two concrete directions; the four readers get seeds
3, 4, 5, 6 and the evaluator gets seed 7 (with `config.seed = 2`). -/
theorem C9_reader_seed_assignment_witness :
    (∀ p, okFileSystem.make_directory p = .ok ())
    ∧ (∀ p m, okFileSystem.open_text p m = .ok ())
    ∧ ∃ r, load_mt_evaluator sampleConfig sampleGangs ["deu-eng", "eng-fra"] "out"
          okFileSystem sampleConverter sampleCriterion = Except.ok r
        ∧ r.data_readers.map (fun rd => rd.options.seed)
            = (List.range (2 * (["deu-eng", "eng-fra"] : List String).length)).map
                (fun i => sampleConfig.seed + 1 + i)
        ∧ (r.data_readers.map (fun rd => rd.options.seed)).Nodup
        ∧ r.final_seed = sampleConfig.seed + 1 + 2 * (["deu-eng", "eng-fra"] : List String).length
        ∧ r.manual_seed_value = sampleConfig.seed :=
  ⟨fun _ => rfl, fun _ _ => rfl,
   C9_reader_seed_assignment sampleConfig sampleGangs ["deu-eng", "eng-fra"] "out"
     okFileSystem sampleConverter sampleCriterion (fun _ => rfl) (fun _ _ => rfl)⟩

/-- C5: an `OSError` from `make_directory` on the output directory, or
from `open_text` on any of the three output files, becomes a `SetupError`
whose message contains the full offending path; and such a setup failure
for the first direction makes `load_mt_evaluator` itself return that
`SetupError` (no evaluator is constructed, hence before any batch is
processed). -/
theorem C5_fs_failures_are_setup_errors
    (fs : FileSystem) (output_dir direction : String) (gangs : Gangs)
    (h0 : gangs.tp.rank = 0) :
    ((∃ e, fs.make_directory
          (parentPath (rankFileName output_dir direction gangs.dp.rank ".src.txt"))
          = .error e) →
      setupOutputStreams fs output_dir direction gangs
          = .error (LoadError.setupError (mkdirFailMsg
              (parentPath (rankFileName output_dir direction gangs.dp.rank ".src.txt"))))
        ∧ containsPath
            (mkdirFailMsg (parentPath (rankFileName output_dir direction gangs.dp.rank ".src.txt")))
            (parentPath (rankFileName output_dir direction gangs.dp.rank ".src.txt")))
    ∧ (fs.make_directory
          (parentPath (rankFileName output_dir direction gangs.dp.rank ".src.txt")) = .ok () →
       (∃ e, fs.open_text (rankFileName output_dir direction gangs.dp.rank ".src.txt")
          FileMode.write = .error e) →
      setupOutputStreams fs output_dir direction gangs
          = .error (LoadError.setupError (openFailMsg
              (rankFileName output_dir direction gangs.dp.rank ".src.txt")))
        ∧ containsPath
            (openFailMsg (rankFileName output_dir direction gangs.dp.rank ".src.txt"))
            (rankFileName output_dir direction gangs.dp.rank ".src.txt"))
    ∧ (fs.make_directory
          (parentPath (rankFileName output_dir direction gangs.dp.rank ".src.txt")) = .ok () →
       fs.open_text (rankFileName output_dir direction gangs.dp.rank ".src.txt")
          FileMode.write = .ok () →
       (∃ e, fs.open_text (rankFileName output_dir direction gangs.dp.rank ".ref.txt")
          FileMode.write = .error e) →
      setupOutputStreams fs output_dir direction gangs
          = .error (LoadError.setupError (openFailMsg
              (rankFileName output_dir direction gangs.dp.rank ".ref.txt")))
        ∧ containsPath
            (openFailMsg (rankFileName output_dir direction gangs.dp.rank ".ref.txt"))
            (rankFileName output_dir direction gangs.dp.rank ".ref.txt"))
    ∧ (fs.make_directory
          (parentPath (rankFileName output_dir direction gangs.dp.rank ".src.txt")) = .ok () →
       fs.open_text (rankFileName output_dir direction gangs.dp.rank ".src.txt")
          FileMode.write = .ok () →
       fs.open_text (rankFileName output_dir direction gangs.dp.rank ".ref.txt")
          FileMode.write = .ok () →
       (∃ e, fs.open_text (rankFileName output_dir direction gangs.dp.rank ".hyp.txt")
          FileMode.write = .error e) →
      setupOutputStreams fs output_dir direction gangs
          = .error (LoadError.setupError (openFailMsg
              (rankFileName output_dir direction gangs.dp.rank ".hyp.txt")))
        ∧ containsPath
            (openFailMsg (rankFileName output_dir direction gangs.dp.rank ".hyp.txt"))
            (rankFileName output_dir direction gangs.dp.rank ".hyp.txt"))
    ∧ ∀ (config : MTEvalConfig) (rest : List String) (conv : ConverterFn)
        (crit : CriterionFn) (err : LoadError),
        setupOutputStreams fs output_dir direction gangs = .error err →
        load_mt_evaluator config gangs (direction :: rest) output_dir fs conv crit
          = .error err := by
  refine ⟨fun ⟨e, he⟩ => ⟨?_, ?_⟩, fun h1 ⟨e, he⟩ => ⟨?_, ?_⟩,
    fun h1 h2 ⟨e, he⟩ => ⟨?_, ?_⟩, fun h1 h2 h3 ⟨e, he⟩ => ⟨?_, ?_⟩,
    fun config rest conv crit err h => ?_⟩
  · simp [setupOutputStreams, h0, he]
  · exact ⟨"The \x27",
      "\x27 output directory cannot be created. See the nested exception for details.", rfl⟩
  · simp [setupOutputStreams, h0, h1, he]
  · exact ⟨"The \x27",
      "\x27 output file cannot be created. See the nested exception for details.", rfl⟩
  · simp [setupOutputStreams, h0, h1, h2, he]
  · exact ⟨"The \x27",
      "\x27 output file cannot be created. See the nested exception for details.", rfl⟩
  · simp [setupOutputStreams, h0, h1, h2, h3, he]
  · exact ⟨"The \x27",
      "\x27 output file cannot be created. See the nested exception for details.", rfl⟩
  · simp [load_mt_evaluator, loadLoop, h]

/-- C5 witness: a concrete filesystem whose `make_directory` fails turns
into a `SetupError` naming the directory, and `load_mt_evaluator` with one
concrete direction returns it. -/
theorem C5_fs_failures_are_setup_errors_witness :
    sampleGangs.tp.rank = 0
    ∧ (∃ e, mkdirFailingFileSystem.make_directory
        (parentPath (rankFileName "out" "deu-eng" sampleGangs.dp.rank ".src.txt"))
        = .error e)
    ∧ setupOutputStreams mkdirFailingFileSystem "out" "deu-eng" sampleGangs
        = .error (LoadError.setupError (mkdirFailMsg
            (parentPath (rankFileName "out" "deu-eng" sampleGangs.dp.rank ".src.txt"))))
    ∧ containsPath
        (mkdirFailMsg (parentPath (rankFileName "out" "deu-eng" sampleGangs.dp.rank ".src.txt")))
        (parentPath (rankFileName "out" "deu-eng" sampleGangs.dp.rank ".src.txt"))
    ∧ load_mt_evaluator sampleConfig sampleGangs ["deu-eng"] "out" mkdirFailingFileSystem
        sampleConverter sampleCriterion
        = .error (LoadError.setupError (mkdirFailMsg
            (parentPath (rankFileName "out" "deu-eng" sampleGangs.dp.rank ".src.txt")))) :=
  ⟨rfl, ⟨_, rfl⟩,
   ((C5_fs_failures_are_setup_errors mkdirFailingFileSystem "out" "deu-eng" sampleGangs
      rfl).1 ⟨_, rfl⟩).1,
   ((C5_fs_failures_are_setup_errors mkdirFailingFileSystem "out" "deu-eng" sampleGangs
      rfl).1 ⟨_, rfl⟩).2,
   (C5_fs_failures_are_setup_errors mkdirFailingFileSystem "out" "deu-eng" sampleGangs
      rfl).2.2.2.2 sampleConfig [] sampleConverter sampleCriterion _
      (((C5_fs_failures_are_setup_errors mkdirFailingFileSystem "out" "deu-eng" sampleGangs
        rfl).1 ⟨_, rfl⟩).1)⟩

/-- C10: `setup_fairseq2` is idempotent: whenever a call returns a state
and a context, calling again from that state performs no registration work
(the state is unchanged) and returns the same context; and the first call
from the initial process state sets the flag, constructs the runtime
context and stores it. -/
theorem C10_setup_fairseq2_idempotent (s s1 : ProcessState) (c : RuntimeContext)
    (h : setup_fairseq2 s = some (s1, c)) :
    setup_fairseq2 s1 = some (s1, c)
    ∧ s1.setup_called = true
    ∧ setup_fairseq2 initialProcessState
        = some ({ setup_called := true, runtime_context := some setup_runtime_context },
                setup_runtime_context) := by
  unfold setup_fairseq2 at h
  by_cases hs : s.setup_called
  · simp only [hs, if_true, get_runtime_context] at h
    cases hrc : s.runtime_context with
    | none => rw [hrc] at h; exact Option.noConfusion h
    | some c0 =>
      rw [hrc] at h
      simp only [Option.map_some', Option.some.injEq, Prod.mk.injEq] at h
      obtain ⟨h1, h2⟩ := h
      subst h1
      subst h2
      refine ⟨?_, hs, rfl⟩
      unfold setup_fairseq2
      simp [hs, get_runtime_context, hrc]
  · simp only [hs, if_false, Bool.false_eq_true, set_runtime_context,
      Option.some.injEq, Prod.mk.injEq] at h
    obtain ⟨h1, h2⟩ := h
    subst h1
    subst h2
    refine ⟨?_, rfl, rfl⟩
    unfold setup_fairseq2
    simp [get_runtime_context]

/-- C10 witness: the first call from the initial state, and the second
call from the resulting state returning the same context unchanged. -/
theorem C10_setup_fairseq2_idempotent_witness :
    setup_fairseq2 initialProcessState
        = some ({ setup_called := true, runtime_context := some setup_runtime_context },
                setup_runtime_context)
    ∧ setup_fairseq2 { setup_called := true, runtime_context := some setup_runtime_context }
        = some ({ setup_called := true, runtime_context := some setup_runtime_context },
                setup_runtime_context) :=
  ⟨rfl,
   (C10_setup_fairseq2_idempotent initialProcessState
      { setup_called := true, runtime_context := some setup_runtime_context }
      setup_runtime_context rfl).1⟩

end Fairseq2
